import Mathlib

/-!
Verification of ui/sd_internal/runtime.py (stable-diffusion-ui).

Shallow embedding conventions:
* Python floats that only ever hold request parameters (prompt strength,
  guidance scale, memory sizes) are modelled as rationals.
* Python strings are modelled as Lean String, except in the base64 / data-URI
  codec where a string is modelled as a list of characters (Python strings are
  character sequences; this keeps prefix/drop reasoning elementary).
* Bytes are natural numbers < 256.
* The thread-local state (thread_data) is an explicit record threaded through
  the functions that mutate it.
* Fallible code returns Except String.
-/

namespace SDRuntime

/-- Python int() applied to a rational: truncation toward zero. -/
def pyInt (q : ℚ) : ℤ := if 0 ≤ q then ⌊q⌋ else ⌈q⌉

/-- runtime.py line 573: t_enc = int(req.prompt_strength * req.num_inference_steps). -/
def t_enc_of (prompt_strength : ℚ) (num_inference_steps : ℕ) : ℤ :=
  pyInt (prompt_strength * num_inference_steps)

/-- The invocation of thread_data.model.sample made by _img2img / _txt2img:
the step count and sampler actually passed to the opaque sampler. -/
structure SampleInvocation where
  steps : ℤ
  sampler : String
  deriving DecidableEq, Repr

/-- runtime.py lines 763-786 (_img2img): the sampler is invoked with S = t_enc
and sampler = ddim. -/
def img2img_sample_call (t_enc : ℤ) : SampleInvocation :=
  { steps := t_enc, sampler := "ddim" }

/-- runtime.py line 611: n_steps = req.num_inference_steps if req.init_image is
None else t_enc (total step count reported to the progress callback). -/
def n_steps_of (has_init_image : Bool) (num_inference_steps : ℕ)
    (prompt_strength : ℚ) : ℤ :=
  if has_init_image then t_enc_of prompt_strength num_inference_steps
  else num_inference_steps

/-! ## Weighted sub-prompt blending (runtime.py lines 595-604) -/

/-- A conditioning tensor, modelled as a vector of rationals. -/
abbrev Vec := List ℚ

/-- torch.zeros_like(uc). -/
def zeros_like (v : Vec) : Vec := v.map (fun _ => 0)

/-- torch.add(c, x, alpha = w): elementwise c + w * x. -/
def torch_add (c x : Vec) (alpha : ℚ) : Vec :=
  c.zipWith (fun a b => a + alpha * b) x

/-- runtime.py lines 596-604: c = zeros_like(uc); totalWeight = sum(weights);
for each subprompt i, c = torch.add(c, cond(subprompts[i]),
alpha = weights[i] / totalWeight). -/
def blend_subprompts (get_cond : String → Vec) (uc : Vec)
    (subprompts : List String) (weights : List ℚ) : Vec :=
  let totalWeight := weights.sum
  (subprompts.zip weights).foldl
    (fun c p => torch_add c (get_cond p.1) (p.2 / totalWeight))
    (zeros_like uc)

/-! ## Thread-local model cache state (runtime.py thread_data, device_init,
load_model_ckpt, unload_models, do_mk_img lines 492-509, mk_img) -/

/-- The fields of thread_data that the model-cache logic reads or writes.
model abstracts whether the three model handles (model / modelCS / modelFS)
are bound (thread_data.model is not None); they are loaded and unloaded
together. -/
structure ThreadState where
  model : Bool
  ckpt_file : Option String
  vae_file : Option String
  precision : String
  model_is_half : Bool
  model_fs_is_half : Bool
  force_full_precision : Bool
  reduced_memory : Bool
  device : String
  deriving DecidableEq, Repr

/-- runtime.py lines 297-306 (unload_models): drop the three model handles. -/
def unload_models (td : ThreadState) : ThreadState := { td with model := false }

/-- runtime.py lines 197-286 (load_model_ckpt), state effects only: the
precision fallback (lines 201-202), the CPU full-precision override (lines
207-208), binding the three handles, and the half conversion (lines 276-284). -/
def load_model_ckpt (td : ThreadState) : ThreadState :=
  let td1 := if td.precision = "" then
      { td with precision := if td.force_full_precision then "full" else "autocast" }
    else td
  let td2 := if td1.device = "cpu" then { td1 with precision := "full" } else td1
  if td2.device ≠ "cpu" ∧ td2.precision = "autocast" then
    { td2 with model := true, model_is_half := true, model_fs_is_half := true }
  else
    { td2 with model := true, model_is_half := false, model_fs_is_half := false }

/-- The request fields that drive the model-cache decision in do_mk_img. -/
structure GenRequest where
  use_stable_diffusion_model : String
  use_vae_model : Option String
  use_full_precision : Bool
  deriving DecidableEq, Repr

/-- runtime.py lines 494-498: needs_model_reload when no model is bound or the
checkpoint / VAE identity differs from the request (value equality); on a hit
nothing changes, otherwise the identities are recorded. -/
def check_model_ident (td : ThreadState) (req : GenRequest) : Bool × ThreadState :=
  if td.model = false ∨ td.ckpt_file ≠ some req.use_stable_diffusion_model ∨
      td.vae_file ≠ req.use_vae_model then
    (true, { td with ckpt_file := some req.use_stable_diffusion_model,
                     vae_file := req.use_vae_model })
  else (false, td)

/-- runtime.py lines 500-504: on a non-CPU device, a precision change that
alters numerical behavior also forces a reload. -/
def check_precision (td : ThreadState) (req : GenRequest) : Bool × ThreadState :=
  if td.device ≠ "cpu" ∧
      ((td.precision = "autocast" ∧
        (req.use_full_precision = true ∨ td.model_is_half = false)) ∨
       (td.precision = "full" ∧ req.use_full_precision = false ∧
        td.force_full_precision = false)) then
    (true, { td with precision := if req.use_full_precision then "full" else "autocast" })
  else (false, td)

/-- runtime.py lines 494-509: the two needs_model_reload checks followed by
unload_models / unload_filters / load_model_ckpt when a reload is needed.
Returns the number of load_model_ckpt invocations (0 or 1) together with the
updated state. -/
def ensure_model_loaded (td : ThreadState) (req : GenRequest) : ℕ × ThreadState :=
  let a := check_model_ident td req
  let b := check_precision a.2 req
  if a.1 = true ∨ b.1 = true then (1, load_model_ckpt (unload_models b.2))
  else (0, b.2)

/-- runtime.py line 492 followed by lines 494-509: the checkpoint existence
check, then the reload decision. fs is the filesystem oracle (os.path.exists
on the .ckpt path). -/
def do_mk_img_prepare (fs : String → Bool) (td : ThreadState) (req : GenRequest) :
    Except String (ℕ × ThreadState) :=
  if fs req.use_stable_diffusion_model = false then
    .error ("Cannot find " ++ req.use_stable_diffusion_model ++ ".ckpt")
  else
    .ok (ensure_model_loaded td req)

/-- Fresh worker state as set up by device_init (runtime.py lines 103-130)
for a first CUDA device, with the default autocast precision. -/
def tdInitW : ThreadState :=
  { model := false, ckpt_file := none, vae_file := none, precision := "autocast",
    model_is_half := false, model_fs_is_half := false, force_full_precision := false,
    reduced_memory := true, device := "0" }

def reqA_W : GenRequest :=
  { use_stable_diffusion_model := "sd-v1-4", use_vae_model := none,
    use_full_precision := false }

def reqB_W : GenRequest :=
  { use_stable_diffusion_model := "custom-model", use_vae_model := none,
    use_full_precision := false }

/-! ## Progress callback and cooperative cancellation
(runtime.py get_image_progress_generator lines 453-478 and do_mk_img lines
615-645) -/

/-- Where, if anywhere, UserInitiatedStop interrupts the sampling run.
atStep k models the stop flag being observed by the per-step callback at step
k — the callback records the latent first (line 463) and raises afterwards
(lines 476-477). beforeFirstCallback models the exception surfacing before the
callback ever ran, i.e. with partial_x_samples still None (line 458). -/
inductive CancelPoint where
  | never
  | beforeFirstCallback
  | atStep (k : ℕ)
  deriving DecidableEq, Repr

/-- The img_callback loop (lines 460-477): at each step i the latent is stored
into thread_data.partial_x_samples, then the stop flag is checked and raises.
Returns the final partial_x_samples and whether UserInitiatedStop was raised.
latents lists the per-step latents the sampler passes to the callback, in step
order; i is the current step index and part the stored partial latent. -/
def run_img_callback {α : Type} : List α → CancelPoint → ℕ → Option α → Option α × Bool
  | [], _, _, part => (part, false)
  | x :: xs, c, i, _ =>
      if c = .atStep i then (some x, true)
      else run_img_callback xs c (i + 1) (some x)

/-- partial_x_samples is initialised to None when the progress generator is
built (line 458); the callback loop then runs from step 0. -/
def sampling_partial {α : Type} (latents : List α) (c : CancelPoint) :
    Option α × Bool :=
  match c with
  | .beforeFirstCallback => (none, true)
  | c => run_img_callback latents c 0 none

/-- do_mk_img sampling/decoding section (lines 615-645) for one batch, with
progress streaming on: run the handler; on normal completion use
partial_x_samples when one was recorded (lines 624-627, falling back to the
sampler return value); on UserInitiatedStop keep the last recorded partial
latent and treat it as the final result, or skip the batch when none was ever
recorded (lines 628-635). Decoding then produces one image per batch element
(lines 638-644). decode i x is modelFS.decode_first_stage on element i of the
joint latent x. The error case of the Except is never produced here: a
cancellation is not reported as a failure. -/
def do_mk_img_sampling {α β : Type} (latents : List α) (samplerReturn : α)
    (c : CancelPoint) (batch_size : ℕ) (decode : ℕ → α → β) :
    Except String (List β) :=
  let pr := sampling_partial latents c
  match pr.2, pr.1 with
  | true, none => .ok []
  | true, some x => .ok ((List.range batch_size).map (fun i => decode i x))
  | false, some x => .ok ((List.range batch_size).map (fun i => decode i x))
  | false, none => .ok ((List.range batch_size).map (fun i => decode i samplerReturn))

/-! ## Device auto-selection (runtime.py device_would_fail, device_select,
device_init lines 67-101 and 145-164) -/

/-- One CUDA device as probed by torch.cuda.mem_get_info and get_device_name.
Memory values are in GB: the code divides the byte counts by 10^9 before any
comparison, so the divided rationals are modelled directly. -/
structure Gpu where
  mem_free : ℚ
  mem_total : ℚ
  name : String
  deriving DecidableEq, Repr

/-- runtime.py lines 150-160: the probe loop of the auto branch. max_mem_free
starts at 0 and best_device at None; a device becomes best_device when its
free memory strictly exceeds the running maximum. Returns (max_mem_free,
best_device). -/
def auto_probe (gpus : List Gpu) : ℚ × Option ℕ :=
  gpus.enum.foldl
    (fun acc p => if acc.1 < p.2.mem_free then (p.2.mem_free, some p.1) else acc)
    (0, none)

/-- runtime.py lines 67-78 (device_would_fail) for an integer device ordinal:
None when no issue is found, otherwise the detected error text (a RuntimeError
from mem_get_info on a nonexistent ordinal is returned as a string). -/
def device_would_fail (gpus : List Gpu) (device : ℕ) : Option String :=
  match gpus.get? device with
  | none => some "invalid device ordinal"
  | some g =>
      if g.mem_total < 3 then
        some "GPUs with less than 3 GB of VRAM are not compatible with Stable Diffusion"
      else none

/-- runtime.py lines 80-101 (device_select) for an integer ordinal with CUDA
available: a failure message containing invalid device raises NameError;
any other failure message is printed and the device is soft-rejected. -/
def device_select (gpus : List Gpu) (device : ℕ) : Except String Bool :=
  match device_would_fail gpus device with
  | some msg =>
      if msg = "invalid device ordinal" then
        .error "GPU could not be found. Remove this device from config.render_devices."
      else .ok false
  | none => .ok true

/-- runtime.py lines 145-164: the auto branch of device_init when CUDA is
available. Returns the ordinal activated by this branch, or none when control
falls through to the current-device path (line 177 onwards). Faithful to the
source: with one device or fewer the selection is rewritten to current (line
146); the guard `if best_device` is Python truthiness, so ordinal 0 is falsy;
and both device_select and torch.cuda.device are applied to the loop variable
`device`, whose value after the loop is the LAST probed ordinal (lines
161-163), not best_device. -/
def device_init_auto (gpus : List Gpu) : Except String (Option ℕ) :=
  if gpus.length ≤ 1 then .ok none
  else
    let best := (auto_probe gpus).2
    let device := gpus.length - 1
    let truthy : Bool := match best with
      | none => false
      | some b => b != 0
    if truthy then
      match device_select gpus device with
      | .error e => .error e
      | .ok true => .ok (some device)
      | .ok false => .ok none
    else .ok none

/-- Three healthy GPUs; the middle one has the most free memory. -/
def gpusW : List Gpu := [⟨1, 8, "GPU A"⟩, ⟨6, 8, "GPU B"⟩, ⟨2, 8, "GPU C"⟩]

/-- Two healthy GPUs; the first one has the most free memory. -/
def gpus0W : List Gpu := [⟨6, 8, "GPU A"⟩, ⟨1, 8, "GPU B"⟩]

/-! ## Failure handling in mk_img (runtime.py lines 411-431) -/

/-- The two cleanup policies of the mk_img exception handler. -/
inductive Cleanup where
  | movedToHost
  | unloadedAll
  deriving DecidableEq, Repr

/-- The structured record yielded by the mk_img exception handler
(lines 428-431). -/
structure FailureYield where
  status : String
  detail : String
  deriving DecidableEq, Repr

/-- runtime.py lines 411-431 (mk_img): when do_mk_img raises e, the handler
performs the cleanup chosen by the reduced_memory flag — moving modelFS,
modelCS, model.model1 and model.model2 back to host memory under reduced
memory, otherwise unload_models() plus unload_filters() — and then yields a
JSON record with status failed carrying str(e). Under reduced memory the
cleanup calls .to on the model handles, which itself raises AttributeError
when the handles are None (no model bound); in that case the failure record is
never yielded and the new exception propagates instead. -/
def mk_img_on_exception (td : ThreadState) (e : String) :
    Except String (FailureYield × Cleanup) :=
  if td.reduced_memory then
    if td.model then .ok (⟨"failed", e⟩, .movedToHost)
    else .error "AttributeError: NoneType object has no attribute to"
  else .ok (⟨"failed", e⟩, .unloadedAll)

/-- A worker state with the model handles bound. -/
def tdLoadedW : ThreadState :=
  { tdInitW with model := true, ckpt_file := some "sd-v1-4", model_is_half := true }

/-! ## Filter model loading (runtime.py is_first_cuda_device lines 188-195,
load_model_gfpgan lines 332-341, load_model_real_esrgan lines 343-364,
apply_filters lines 380-409) -/

/-- The values thread_data.device can hold: the CPU marker string, an integer
CUDA ordinal, or one of the symbolic CUDA name strings. -/
inductive Device where
  | cpu
  | cuda (idx : ℕ)
  | named (s : String)
  deriving DecidableEq, Repr

/-- runtime.py lines 188-195: true only for the first CUDA device. -/
def is_first_cuda_device : Option Device → Bool
  | none => false
  | some .cpu => false
  | some (.cuda i) => i == 0
  | some (.named s) =>
      s == "0" || s == "cuda" || s == "cuda:0" || s == "gpu" || s == "gpu:0" ||
      s == "current"

/-- The thread_data fields used by the filter loaders: the device, the two
filter identities, the two loaded filter model handles (carrying the identity
they were loaded from), and the half-precision flag consulted by the
RealESRGAN loader. -/
structure FilterState where
  device : Option Device
  gfpgan_file : Option String
  real_esrgan_file : Option String
  model_gfpgan : Option String
  model_real_esrgan : Option String
  model_is_half : Bool
  deriving DecidableEq, Repr

/-- runtime.py lines 332-341 (load_model_gfpgan): requires gfpgan_file to be
set and the thread device to be the first CUDA device; any other device is
rejected outright with an exception. -/
def load_model_gfpgan (td : FilterState) : Except String FilterState :=
  match td.gfpgan_file with
  | none => .error "Thread gfpgan_file is undefined."
  | some f =>
      if is_first_cuda_device td.device = false then
        .error "Current device is not cuda:0. Cannot run GFPGANer."
      else .ok { td with model_gfpgan := some f }

/-- runtime.py lines 343-364 (load_model_real_esrgan): requires
real_esrgan_file to be set and to name one of the two known RealESRGAN
architectures (otherwise the dict lookup raises KeyError); it performs NO
device check — CPU gets a dedicated non-half branch and every other device is
accepted as-is. -/
def load_model_real_esrgan (td : FilterState) : Except String FilterState :=
  match td.real_esrgan_file with
  | none => .error "Thread real_esrgan_file is undefined."
  | some f =>
      if f ≠ "RealESRGAN_x4plus" ∧ f ≠ "RealESRGAN_x4plus_anime_6B" then
        .error "KeyError"
      else .ok { td with model_real_esrgan := some f }

/-- runtime.py lines 380-409 (apply_filters), model-management part: for the
named filter, reload its model when an identity is supplied and differs from
the stored one, lazily load it when no model is bound yet, then require a
bound model. The enhance call itself is outside the model (opaque network). -/
def apply_filters_load (filter_name : String) (td : FilterState)
    (model_path : Option String) : Except String FilterState :=
  if filter_name = "gfpgan" then
    let r : Except String FilterState :=
      if model_path ≠ none ∧ model_path ≠ td.gfpgan_file then
        load_model_gfpgan { td with gfpgan_file := model_path }
      else if td.model_gfpgan = none then load_model_gfpgan td
      else .ok td
    match r with
    | .error e => .error e
    | .ok td2 =>
        match td2.model_gfpgan with
        | none => .error "Model gfpgan not loaded."
        | some _ => .ok td2
  else if filter_name = "real_esrgan" then
    let r : Except String FilterState :=
      if model_path ≠ none ∧ model_path ≠ td.real_esrgan_file then
        load_model_real_esrgan { td with real_esrgan_file := model_path }
      else if td.model_real_esrgan = none then load_model_real_esrgan td
      else .ok td
    match r with
    | .error e => .error e
    | .ok td2 =>
        match td2.model_real_esrgan with
        | none => .error "Model real_esrgan not loaded."
        | some _ => .ok td2
  else .ok td

/-- A CPU-device filter state with a valid upscaler identity requested. -/
def fsCpuW : FilterState :=
  { device := some .cpu, gfpgan_file := none,
    real_esrgan_file := some "RealESRGAN_x4plus", model_gfpgan := none,
    model_real_esrgan := none, model_is_half := false }

/-- A worker on the first CUDA device with both filters already loaded. -/
def fsGpuW : FilterState :=
  { device := some (.cuda 0), gfpgan_file := some "GFPGANv1.3",
    real_esrgan_file := some "RealESRGAN_x4plus",
    model_gfpgan := some "GFPGANv1.3",
    model_real_esrgan := some "RealESRGAN_x4plus", model_is_half := true }

/-- A worker on the first CUDA device with no filter loaded yet. -/
def fsFreshW : FilterState :=
  { device := some (.cuda 0), gfpgan_file := none, real_esrgan_file := none,
    model_gfpgan := none, model_real_esrgan := none, model_is_half := true }

/-! ## base64 / data-URI image codec (runtime.py img_to_base64_str lines
853-860, base64_str_to_img lines 862-868). Python strings are modelled as
character lists here. -/

/-- The standard base64 alphabet used by Python base64.b64encode. -/
def b64Alphabet : List Char :=
  "ABCDEFGHIJKLMNOPQRSTUVWXYZabcdefghijklmnopqrstuvwxyz0123456789+/".toList

/-- The base64 digit character for a 6-bit value. -/
def encChar (n : ℕ) : Char := b64Alphabet.getD n 'A'

/-- The 6-bit value of a base64 digit character. -/
def decChar (c : Char) : ℕ := b64Alphabet.indexOf c

/-- Modelled from the spec: Python base64.b64encode (standard library,
external to the repository), RFC 4648 encoding of a byte list with =
padding. -/
def b64encode : List ℕ → List Char
  | [] => []
  | [a] => [encChar (a / 4), encChar (a % 4 * 16), '=', '=']
  | [a, b] =>
      [encChar (a / 4), encChar (a % 4 * 16 + b / 16), encChar (b % 16 * 4), '=']
  | a :: b :: c :: rest =>
      encChar (a / 4) :: encChar (a % 4 * 16 + b / 16) ::
      encChar (b % 16 * 4 + c / 64) :: encChar (c % 64) :: b64encode rest

/-- Modelled from the spec: Python base64.b64decode (standard library,
external to the repository) on well-padded input. -/
def b64decode : List Char → List ℕ
  | c1 :: c2 :: c3 :: c4 :: rest =>
      if c3 = '=' then [decChar c1 * 4 + decChar c2 / 16]
      else if c4 = '=' then
        [decChar c1 * 4 + decChar c2 / 16, decChar c2 % 16 * 16 + decChar c3 / 4]
      else
        (decChar c1 * 4 + decChar c2 / 16) ::
        (decChar c2 % 16 * 16 + decChar c3 / 4) ::
        (decChar c3 % 4 * 64 + decChar c4) :: b64decode rest
  | _ => []

/-- An image: dimensions plus raw pixel bytes. -/
structure Img where
  width : ℕ
  height : ℕ
  pixels : List ℕ
  deriving DecidableEq, Repr

/-- Big-endian 4-byte encoding of a 32-bit dimension. -/
def natToBytes4 (n : ℕ) : List ℕ :=
  [n / 16777216 % 256, n / 65536 % 256, n / 256 % 256, n % 256]

/-- The dimension back from its 4 bytes. -/
def bytes4ToNat (a b c d : ℕ) : ℕ := a * 16777216 + b * 65536 + c * 256 + d

/-- Modelled from the spec: the PNG codec of the external PIL library
(img.save with format PNG, Image.open), which the spec calls a lossless codec
path — PNG preserves pixels exactly. Serialization: 4-byte big-endian
dimensions followed by the raw pixel bytes. -/
def pngEncode (img : Img) : List ℕ :=
  natToBytes4 img.width ++ natToBytes4 img.height ++ img.pixels

/-- Modelled from the spec: the PNG decoder matching pngEncode. -/
def pngDecode : List ℕ → Option Img
  | w1 :: w2 :: w3 :: w4 :: h1 :: h2 :: h3 :: h4 :: pix =>
      some ⟨bytes4ToNat w1 w2 w3 w4, bytes4ToNat h1 h2 h3 h4, pix⟩
  | _ => none

/-- The PNG data-URI marker prepended by img_to_base64_str (22 characters). -/
def pngUriHead : List Char := "data:image/png;base64,".toList

/-- The mime marker tested by base64_str_to_img (15 characters). -/
def pngMimeTest : List Char := "data:image/png;".toList

/-- runtime.py lines 853-860 (img_to_base64_str) with output_format PNG: the
image is serialized by the PNG codec, base64-encoded, and prefixed with the
PNG data-URI marker. -/
def img_to_base64_str (img : Img) : List Char :=
  pngUriHead ++ b64encode (pngEncode img)

/-- runtime.py lines 863-864: the mime type is chosen by testing the prefix
"data:image/png;" only, and the length of the corresponding full data-URI
marker — 22 characters for PNG, else 23, the length of
"data:image/jpeg;base64," — is dropped from the front unconditionally. -/
def dataUriStrip (s : List Char) : List Char :=
  if pngMimeTest.isPrefixOf s then s.drop 22 else s.drop 23

/-- runtime.py lines 862-868 (base64_str_to_img): strip the data-URI marker,
base64-decode, and hand the bytes to the image reader (Image.open sniffs the
actual format from the bytes; the payloads modelled here are PNG). -/
def base64_str_to_img (s : List Char) : Option Img :=
  pngDecode (b64decode (dataUriStrip s))

/-! ## Conditioning (runtime.py do_mk_img lines 587-606) -/

/-- runtime.py lines 589-606: the conditioning section of do_mk_img. uc is
computed only when guidance_scale differs from 1.0 (lines 589-591); when the
prompt parses into more than one subprompt, blending starts from
torch.zeros_like(uc) (line 597), which raises TypeError when uc is None;
otherwise conditioning is taken directly from the prompt (line 606).
get_cond is modelCS.get_learned_conditioning; subprompts and weights are the
output of the external split_weighted_subprompts parser on the prompt. -/
def conditioning_step (get_cond : String → Vec) (guidance_scale : ℚ)
    (negative_prompt prompt : String)
    (subprompts : List String) (weights : List ℚ) : Except String Vec :=
  let uc : Option Vec :=
    if guidance_scale ≠ 1 then some (get_cond negative_prompt) else none
  if subprompts.length > 1 then
    match uc with
    | none => .error "TypeError: zeros_like expected a Tensor, got None"
    | some u => .ok (blend_subprompts get_cond u subprompts weights)
  else .ok (get_cond prompt)

/-! ## Lemmas and claim theorems -/

lemma sum_map_mul (k : ℚ) (ws : List ℚ) :
    (ws.map (fun w => k * w)).sum = k * ws.sum := by
  induction ws with
  | nil => simp
  | cons w ws ih => simp [ih, mul_add]

lemma foldl_zip_scaled (get_cond : String → Vec) (k S : ℚ) (hk : k ≠ 0) :
    ∀ (sps : List String) (ws : List ℚ) (d : Vec),
      ((sps.zip (ws.map (fun w => k * w))).foldl
        (fun c p => torch_add c (get_cond p.1) (p.2 / (k * S))) d) =
      ((sps.zip ws).foldl
        (fun c p => torch_add c (get_cond p.1) (p.2 / S)) d) := by
  intro sps
  induction sps with
  | nil => intro ws d; rfl
  | cons s sps ih =>
      intro ws d
      cases ws with
      | nil => rfl
      | cons w ws =>
          simp only [List.map_cons, List.zip_cons_cons, List.foldl_cons]
          rw [mul_div_mul_left _ _ hk, ih]

lemma blend_subprompts_scale (get_cond : String → Vec) (uc : Vec)
    (subprompts : List String) (weights : List ℚ) (k : ℚ) (hk : k ≠ 0) :
    blend_subprompts get_cond uc subprompts (weights.map (fun w => k * w)) =
      blend_subprompts get_cond uc subprompts weights := by
  unfold blend_subprompts
  rw [sum_map_mul]
  exact foldl_zip_scaled get_cond k weights.sum hk subprompts weights (zeros_like uc)

lemma load_model_ckpt_fields (td : ThreadState) :
    (load_model_ckpt td).model = true ∧
    (load_model_ckpt td).ckpt_file = td.ckpt_file ∧
    (load_model_ckpt td).vae_file = td.vae_file ∧
    (load_model_ckpt td).device = td.device ∧
    (load_model_ckpt td).force_full_precision = td.force_full_precision := by
  simp only [load_model_ckpt]
  split_ifs <;> simp

lemma check_model_ident_snd (td : ThreadState) (req : GenRequest) :
    (check_model_ident td req).2.ckpt_file = some req.use_stable_diffusion_model ∧
    (check_model_ident td req).2.vae_file = req.use_vae_model ∧
    (check_model_ident td req).2.precision = td.precision ∧
    (check_model_ident td req).2.model_is_half = td.model_is_half ∧
    (check_model_ident td req).2.force_full_precision = td.force_full_precision ∧
    (check_model_ident td req).2.device = td.device ∧
    (check_model_ident td req).2.model = td.model := by
  simp only [check_model_ident]
  split_ifs with h
  · simp
  · push_neg at h
    simp [h.2.1, h.2.2]

lemma check_model_ident_fst_false (td : ThreadState) (req : GenRequest)
    (h : (check_model_ident td req).1 = false) :
    (check_model_ident td req).2 = td := by
  simp only [check_model_ident] at h ⊢
  split_ifs at h ⊢ <;> simp_all

lemma check_precision_snd (td : ThreadState) (req : GenRequest) :
    (check_precision td req).2.ckpt_file = td.ckpt_file ∧
    (check_precision td req).2.vae_file = td.vae_file ∧
    (check_precision td req).2.device = td.device ∧
    (check_precision td req).2.force_full_precision = td.force_full_precision ∧
    (check_precision td req).2.model = td.model := by
  simp only [check_precision]
  split_ifs <;> simp

lemma check_precision_fst_false (td : ThreadState) (req : GenRequest)
    (h : (check_precision td req).1 = false) :
    (check_precision td req).2 = td := by
  simp only [check_precision] at h ⊢
  split_ifs at h ⊢ <;> simp_all

/-- The fields of the state after ensure_model_loaded. -/
lemma ensure_model_loaded_snd_ident (td : ThreadState) (req : GenRequest) :
    (ensure_model_loaded td req).2.ckpt_file = some req.use_stable_diffusion_model ∧
    (ensure_model_loaded td req).2.vae_file = req.use_vae_model := by
  simp only [ensure_model_loaded]
  split_ifs with h
  · rcases load_model_ckpt_fields (unload_models (check_precision (check_model_ident td req).2 req).2)
      with ⟨_, h2, h3, _, _⟩
    rcases check_precision_snd (check_model_ident td req).2 req with ⟨p1, p2, _, _, _⟩
    rcases check_model_ident_snd td req with ⟨q1, q2, _, _, _, _, _⟩
    refine ⟨?_, ?_⟩
    · rw [h2]; show (check_precision _ req).2.ckpt_file = _; rw [p1, q1]
    · rw [h3]; show (check_precision _ req).2.vae_file = _; rw [p2, q2]
  · push_neg at h
    rcases check_precision_snd (check_model_ident td req).2 req with ⟨p1, p2, _, _, _⟩
    rcases check_model_ident_snd td req with ⟨q1, q2, _, _, _, _, _⟩
    exact ⟨by rw [p1, q1], by rw [p2, q2]⟩

lemma ensure_model_loaded_fst_of_model_false (td : ThreadState) (req : GenRequest)
    (hm : td.model = false) :
    (ensure_model_loaded td req).1 = 1 := by
  simp only [ensure_model_loaded, check_model_ident]
  rw [if_pos (Or.inl hm)]
  simp

lemma ensure_model_loaded_fst_of_ckpt_ne (td : ThreadState) (req : GenRequest)
    (h : td.ckpt_file ≠ some req.use_stable_diffusion_model) :
    (ensure_model_loaded td req).1 = 1 := by
  simp only [ensure_model_loaded, check_model_ident]
  rw [if_pos (Or.inr (Or.inl h))]
  simp

lemma check_model_ident_hit (td : ThreadState) (req : GenRequest)
    (h1 : td.model = true)
    (h2 : td.ckpt_file = some req.use_stable_diffusion_model)
    (h3 : td.vae_file = req.use_vae_model) :
    check_model_ident td req = (false, td) := by
  simp only [check_model_ident]
  rw [if_neg]
  push_neg
  exact ⟨by simp [h1], h2, h3⟩

lemma check_precision_miss (td : ThreadState) (req : GenRequest)
    (h : ¬(td.device ≠ "cpu" ∧
      ((td.precision = "autocast" ∧
        (req.use_full_precision = true ∨ td.model_is_half = false)) ∨
       (td.precision = "full" ∧ req.use_full_precision = false ∧
        td.force_full_precision = false)))) :
    check_precision td req = (false, td) := by
  simp only [check_precision]
  rw [if_neg h]

lemma check_precision_fired (td : ThreadState) (req : GenRequest)
    (h : (check_precision td req).1 = true) :
    (check_precision td req).2 =
      { td with precision := if req.use_full_precision then "full" else "autocast" } := by
  simp only [check_precision] at h ⊢
  split_ifs at h ⊢ <;> simp_all

lemma check_precision_not_fired (td : ThreadState) (req : GenRequest)
    (h : (check_precision td req).1 = false) :
    ¬(td.device ≠ "cpu" ∧
      ((td.precision = "autocast" ∧
        (req.use_full_precision = true ∨ td.model_is_half = false)) ∨
       (td.precision = "full" ∧ req.use_full_precision = false ∧
        td.force_full_precision = false))) := by
  simp only [check_precision] at h
  split_ifs at h with hc
  all_goals first
  | exact hc
  | simp_all

lemma load_unload_spec_cpu (td : ThreadState) (hne : td.precision ≠ "")
    (hd : td.device = "cpu") :
    load_model_ckpt (unload_models td) =
      { td with model := true, precision := "full",
                model_is_half := false, model_fs_is_half := false } := by
  simp only [load_model_ckpt, unload_models]
  split_ifs <;> simp_all

lemma load_unload_spec_full (td : ThreadState) (hd : td.device ≠ "cpu")
    (hp : td.precision = "full") :
    load_model_ckpt (unload_models td) =
      { td with model := true, model_is_half := false, model_fs_is_half := false } := by
  simp only [load_model_ckpt, unload_models]
  split_ifs <;> simp_all

lemma load_unload_spec_autocast (td : ThreadState) (hd : td.device ≠ "cpu")
    (hp : td.precision = "autocast") :
    load_model_ckpt (unload_models td) =
      { td with model := true, model_is_half := true, model_fs_is_half := true } := by
  simp only [load_model_ckpt, unload_models]
  split_ifs <;> simp_all

lemma ensure_of_both_false (td : ThreadState) (req : GenRequest)
    (h1 : check_model_ident td req = (false, td))
    (h2 : check_precision td req = (false, td)) :
    ensure_model_loaded td req = (0, td) := by
  simp only [ensure_model_loaded, h1, h2]
  simp

lemma ensure_model_loaded_idem (td : ThreadState) (req : GenRequest)
    (hp : td.precision = "full" ∨ td.precision = "autocast") :
    ensure_model_loaded (ensure_model_loaded td req).2 req =
      (0, (ensure_model_loaded td req).2) := by
  by_cases hfire : (check_model_ident td req).1 = true ∨
      (check_precision (check_model_ident td req).2 req).1 = true
  · -- a reload happened: the resulting state is a cache hit for the same request
    have hsnd : (ensure_model_loaded td req).2 =
        load_model_ckpt (unload_models
          (check_precision (check_model_ident td req).2 req).2) := by
      simp only [ensure_model_loaded]
      rw [if_pos hfire]
    obtain ⟨q1, q2, q3, q4, q5, q6, q7⟩ := check_model_ident_snd td req
    obtain ⟨p1, p2, p3, p4, p5⟩ :=
      check_precision_snd (check_model_ident td req).2 req
    set b2 := (check_precision (check_model_ident td req).2 req).2 with hb2
    have hbck : b2.ckpt_file = some req.use_stable_diffusion_model := by rw [p1, q1]
    have hbvae : b2.vae_file = req.use_vae_model := by rw [p2, q2]
    have hbdev : b2.device = td.device := by rw [p3, q6]
    have hbffp : b2.force_full_precision = td.force_full_precision := by rw [p4, q5]
    by_cases hd : td.device = "cpu"
    · -- CPU device: the precision check never fires again
      have hbprec : b2.precision ≠ "" := by
        by_cases hb1 : (check_precision (check_model_ident td req).2 req).1 = true
        · have hfired := check_precision_fired (check_model_ident td req).2 req hb1
          rw [← hb2] at hfired
          rw [hfired]
          split_ifs <;> simp
        · rw [Bool.not_eq_true] at hb1
          have heq := check_precision_fst_false (check_model_ident td req).2 req hb1
          rw [← hb2] at heq
          rw [heq, q3]
          rcases hp with hp | hp <;> simp [hp]
      have hload := load_unload_spec_cpu b2 hbprec (by rw [hbdev]; exact hd)
      rw [hsnd, hload]
      apply ensure_of_both_false
      · exact check_model_ident_hit _ req rfl hbck hbvae
      · apply check_precision_miss
        dsimp only
        intro hcond
        exact hcond.1 (hbdev.trans hd)
    · -- non-CPU device
      by_cases hb1 : (check_precision (check_model_ident td req).2 req).1 = true
      · -- the precision check fired on the first call
        have hfired := check_precision_fired (check_model_ident td req).2 req hb1
        rw [← hb2] at hfired
        by_cases hfp : req.use_full_precision = true
        · have hbprec : b2.precision = "full" := by rw [hfired]; simp [hfp]
          have hload := load_unload_spec_full b2 (by rw [hbdev]; exact hd) hbprec
          rw [hsnd, hload]
          apply ensure_of_both_false
          · exact check_model_ident_hit _ req rfl hbck hbvae
          · apply check_precision_miss
            dsimp only
            rw [hbprec]
            intro hcond
            rcases hcond.2 with ⟨hc, _⟩ | ⟨_, hc, _⟩
            · simp at hc
            · rw [hfp] at hc; simp at hc
        · rw [Bool.not_eq_true] at hfp
          have hbprec : b2.precision = "autocast" := by rw [hfired]; simp [hfp]
          have hload := load_unload_spec_autocast b2 (by rw [hbdev]; exact hd) hbprec
          rw [hsnd, hload]
          apply ensure_of_both_false
          · exact check_model_ident_hit _ req rfl hbck hbvae
          · apply check_precision_miss
            dsimp only
            rw [hbprec]
            intro hcond
            rcases hcond.2 with ⟨_, hc⟩ | ⟨hc, _⟩
            · rcases hc with hc | hc
              · rw [hfp] at hc; simp at hc
              · simp at hc
            · simp at hc
      · -- the precision check did not fire on the first call
        rw [Bool.not_eq_true] at hb1
        have hbeq : b2 = (check_model_ident td req).2 := by
          rw [hb2]
          exact check_precision_fst_false (check_model_ident td req).2 req hb1
        have hbprec : b2.precision = td.precision := by rw [hbeq, q3]
        have hnc := check_precision_not_fired (check_model_ident td req).2 req hb1
        rw [q3, q4, q5, q6] at hnc
        rcases hp with hp | hp
        · -- precision "full" and not fired: use_full_precision or force is set
          have hload := load_unload_spec_full b2 (by rw [hbdev]; exact hd)
            (by rw [hbprec, hp])
          rw [hsnd, hload]
          apply ensure_of_both_false
          · exact check_model_ident_hit _ req rfl hbck hbvae
          · apply check_precision_miss
            dsimp only
            rw [hbprec, hbdev, hbffp, hp]
            intro hcond
            rcases hcond.2 with ⟨hc, _⟩ | ⟨_, hc1, hc2⟩
            · simp at hc
            · exact hnc ⟨hd, Or.inr ⟨hp, hc1, hc2⟩⟩
        · -- precision "autocast" and not fired: model is half, no full requested
          have hload := load_unload_spec_autocast b2 (by rw [hbdev]; exact hd)
            (by rw [hbprec, hp])
          rw [hsnd, hload]
          apply ensure_of_both_false
          · exact check_model_ident_hit _ req rfl hbck hbvae
          · apply check_precision_miss
            dsimp only
            rw [hbprec, hbdev, hp]
            intro hcond
            rcases hcond.2 with ⟨_, hc⟩ | ⟨hc, _⟩
            · rcases hc with hc | hc
              · exact hnc ⟨hd, Or.inl ⟨hp, Or.inl hc⟩⟩
              · simp at hc
            · simp at hc
  · -- no reload happened: the state is unchanged and stays a cache hit
    push_neg at hfire
    obtain ⟨h1, h2⟩ := hfire
    simp only [ne_eq, Bool.not_eq_true] at h1 h2
    have e1 : (check_model_ident td req).2 = td := check_model_ident_fst_false td req h1
    rw [e1] at h2
    have e2 : (check_precision td req).2 = td := check_precision_fst_false td req h2
    have hens : ensure_model_loaded td req = (0, td) := by
      apply ensure_of_both_false
      · exact Prod.ext h1 e1
      · exact Prod.ext h2 e2
    rw [hens]
    exact hens

/-- C1: for every pair of valid checkpoint identities A ≠ B, starting from a
worker with no model bound, the request for A triggers exactly one model
reload, the following request for B triggers exactly one reload, and running
the request for A again right after the first one (same VAE identity, no
precision change) triggers zero reloads and returns the thread state — hence
the loaded model handles — unchanged: the cache is keyed on value equality of
the checkpoint path (runtime.py lines 492-509). -/
theorem model_cache_reload_semantics (fs : String → Bool) (td0 : ThreadState)
    (rA rB : GenRequest)
    (hm : td0.model = false)
    (hprec : td0.precision = "full" ∨ td0.precision = "autocast")
    (hA : fs rA.use_stable_diffusion_model = true)
    (hB : fs rB.use_stable_diffusion_model = true)
    (hne : rA.use_stable_diffusion_model ≠ rB.use_stable_diffusion_model) :
    do_mk_img_prepare fs td0 rA = .ok (1, (ensure_model_loaded td0 rA).2) ∧
    do_mk_img_prepare fs (ensure_model_loaded td0 rA).2 rB =
      .ok (1, (ensure_model_loaded (ensure_model_loaded td0 rA).2 rB).2) ∧
    do_mk_img_prepare fs (ensure_model_loaded td0 rA).2 rA =
      .ok (0, (ensure_model_loaded td0 rA).2) := by
  refine ⟨?_, ?_, ?_⟩
  · simp only [do_mk_img_prepare, hA]
    rw [if_neg (by simp)]
    exact congrArg Except.ok
      (Prod.ext (ensure_model_loaded_fst_of_model_false td0 rA hm) rfl)
  · simp only [do_mk_img_prepare, hB]
    rw [if_neg (by simp)]
    refine congrArg Except.ok (Prod.ext ?_ rfl)
    apply ensure_model_loaded_fst_of_ckpt_ne
    rw [(ensure_model_loaded_snd_ident td0 rA).1]
    intro hcontra
    exact hne (Option.some.injEq _ _ ▸ hcontra)
  · simp only [do_mk_img_prepare, hA]
    rw [if_neg (by simp)]
    exact congrArg Except.ok (ensure_model_loaded_idem td0 rA hprec)

/-- Witness for C1 at a concrete fresh worker and two concrete checkpoints. -/
theorem model_cache_reload_semantics_witness :
    do_mk_img_prepare (fun _ => true) tdInitW reqA_W =
      .ok (1, (ensure_model_loaded tdInitW reqA_W).2) ∧
    do_mk_img_prepare (fun _ => true) (ensure_model_loaded tdInitW reqA_W).2 reqB_W =
      .ok (1, (ensure_model_loaded (ensure_model_loaded tdInitW reqA_W).2 reqB_W).2) ∧
    do_mk_img_prepare (fun _ => true) (ensure_model_loaded tdInitW reqA_W).2 reqA_W =
      .ok (0, (ensure_model_loaded tdInitW reqA_W).2) :=
  model_cache_reload_semantics (fun _ => true) tdInitW reqA_W reqB_W rfl
    (Or.inr rfl) rfl rfl (by decide)

lemma run_img_callback_at {α : Type} (xs : List α) (k : ℕ) :
    ∀ (i : ℕ) (part : Option α), i ≤ k → k - i < xs.length →
      run_img_callback xs (.atStep k) i part = (xs.get? (k - i), true) := by
  induction xs with
  | nil => intro i part _ h; simp at h
  | cons x xs ih =>
      intro i part hik hlen
      by_cases hek : k = i
      · subst hek
        simp [run_img_callback]
      · rw [run_img_callback, if_neg (by simp [CancelPoint.atStep.injEq]; omega)]
        rw [ih (i + 1) (some x) (by omega) (by simp at hlen; omega)]
        rw [show k - i = (k - (i + 1)) + 1 from by omega, List.get?_cons_succ]

/-- C2: with progress streaming on, cancellation observed by the per-step
callback at step k (k > 0, with x the latent it recorded at that step — the
most recent callback invocation at or before step k) makes the run yield
exactly one decoded result per batch element, all derived from x; cancellation
surfacing before any callback invocation yields no result for the batch and is
not reported as an error (the pipeline continues — the Except never carries an
error in either case). -/
theorem sampling_cancel_partial_result {α β : Type} (latents : List α)
    (samplerReturn : α) (k bs : ℕ) (decode : ℕ → α → β) (x : α)
    (hk0 : 0 < k) (hx : latents.get? k = some x) :
    do_mk_img_sampling latents samplerReturn (.atStep k) bs decode =
      .ok ((List.range bs).map (fun i => decode i x)) ∧
    ((List.range bs).map (fun i => decode i x)).length = bs ∧
    do_mk_img_sampling latents samplerReturn .beforeFirstCallback bs decode =
      .ok [] := by
  have hk : k < latents.length := by
    by_contra hcon
    rw [List.get?_eq_none.mpr (by omega)] at hx
    exact Option.noConfusion hx
  have hrun := run_img_callback_at latents k 0 none (Nat.zero_le k)
    (by simpa using hk)
  rw [Nat.sub_zero, hx] at hrun
  refine ⟨?_, by simp, rfl⟩
  unfold do_mk_img_sampling
  rw [show sampling_partial latents (.atStep k) =
    run_img_callback latents (.atStep k) 0 none from rfl, hrun]

/-- Witness for C2: three recorded step latents, cancellation at step 1,
batch of two. -/
theorem sampling_cancel_partial_result_witness :
    do_mk_img_sampling [10, 20, 30] 0 (.atStep 1) 2 (fun i a => a + i) =
      .ok ((List.range 2).map (fun i => 20 + i)) ∧
    ((List.range 2).map (fun i => 20 + i)).length = 2 ∧
    do_mk_img_sampling [10, 20, 30] 0 .beforeFirstCallback 2 (fun i a => a + i) =
      .ok [] :=
  sampling_cancel_partial_result [10, 20, 30] 0 1 2 (fun i a => a + i) 20
    (by decide) (by decide)

/-- C3: for an img2img request with promptStrength in the unit interval,
t_enc = int(promptStrength * totalSteps) equals the floor of the product;
strength 0 gives 0 steps, strength 1 gives totalSteps; and the sampling run
performed for the request (the sampler invocation of _img2img, and the total
step count reported to the progress callback) uses exactly t_enc steps. -/
theorem img2img_t_enc_semantics (p : ℚ) (n : ℕ) (h0 : 0 ≤ p) (h1 : p ≤ 1) :
    t_enc_of p n = ⌊p * n⌋ ∧
    t_enc_of 0 n = 0 ∧
    t_enc_of 1 n = n ∧
    (img2img_sample_call (t_enc_of p n)).steps = t_enc_of p n ∧
    n_steps_of true n p = t_enc_of p n := by
  refine ⟨?_, ?_, ?_, rfl, rfl⟩
  · unfold t_enc_of pyInt
    rw [if_pos (mul_nonneg h0 (by positivity))]
  · unfold t_enc_of pyInt
    norm_num
  · unfold t_enc_of pyInt
    rw [if_pos (by positivity)]
    simp

/-- Witness for C3 at promptStrength 3/4 and 10 steps. -/
theorem img2img_t_enc_semantics_witness :
    t_enc_of (3 / 4) 10 = ⌊(3 / 4 : ℚ) * (10 : ℕ)⌋ ∧
    t_enc_of 0 10 = 0 ∧
    t_enc_of 1 10 = 10 ∧
    (img2img_sample_call (t_enc_of (3 / 4) 10)).steps = t_enc_of (3 / 4) 10 ∧
    n_steps_of true 10 (3 / 4) = t_enc_of (3 / 4) 10 :=
  img2img_t_enc_semantics (3 / 4) 10 (by norm_num) (by norm_num)

/-- C4: the combined conditioning produced by weighted sub-prompt blending is
invariant under uniform scaling of the weight vector — weights [2,2] produce
the same conditioning as weights [1,1], and in general scaling every weight by
a nonzero k changes nothing, because each weight is divided by the sum of all
weights before the linear combination. -/
theorem weighted_blend_normalization_invariance (get_cond : String → Vec)
    (uc : Vec) (s1 s2 : String) :
    blend_subprompts get_cond uc [s1, s2] [2, 2] =
      blend_subprompts get_cond uc [s1, s2] [1, 1] ∧
    ∀ (subprompts : List String) (weights : List ℚ) (k : ℚ), k ≠ 0 →
      blend_subprompts get_cond uc subprompts (weights.map (fun w => k * w)) =
        blend_subprompts get_cond uc subprompts weights := by
  constructor
  · have h := blend_subprompts_scale get_cond uc [s1, s2] [1, 1] 2 (by norm_num)
    simpa using h
  · exact fun sps ws k hk => blend_subprompts_scale get_cond uc sps ws k hk

/-- Witness for C4 at a concrete conditioner, two subprompts, and scale 3. -/
theorem weighted_blend_normalization_invariance_witness :
    blend_subprompts (fun _ => [1, 2]) [0, 0] ["a", "b"] [2, 2] =
      blend_subprompts (fun _ => [1, 2]) [0, 0] ["a", "b"] [1, 1] ∧
    blend_subprompts (fun _ => [1, 2]) [0, 0] ["a", "b"]
        ([5, 7].map (fun w => (3 : ℚ) * w)) =
      blend_subprompts (fun _ => [1, 2]) [0, 0] ["a", "b"] [5, 7] :=
  ⟨(weighted_blend_normalization_invariance (fun _ => [1, 2]) [0, 0] "a" "b").1,
   (weighted_blend_normalization_invariance (fun _ => [1, 2]) [0, 0] "a" "b").2
     ["a", "b"] [5, 7] 3 (by norm_num)⟩

/-- C5 (refuting the claim on the code): the probe loop correctly computes
best_device = 1, the GPU with the most free memory, yet the auto branch
validates and activates ordinal 2 — the loop variable left over from the
probe, i.e. the last probed device — not the most-free device; and when the
most-free device is ordinal 0 the Python truthiness guard `if best_device`
is falsy and the auto selection is skipped entirely. -/
theorem device_auto_select_activates_last_probed :
    (auto_probe gpusW).2 = some 1 ∧
    device_init_auto gpusW = .ok (some 2) ∧
    (auto_probe gpus0W).2 = some 0 ∧
    device_init_auto gpus0W = .ok none := by
  refine ⟨?_, ?_, ?_, ?_⟩ <;> rfl

/-- C6 counterexample: on a fresh worker (no model bound yet, reduced_memory
at its default True) an exception escaping do_mk_img — e.g. the
missing-checkpoint FileNotFoundError of line 492 — makes the cleanup inside
the except block raise itself, so no structured failed result is yielded. -/
theorem mk_img_failure_unloaded_reduced_crashes :
    mk_img_on_exception tdInitW "Cannot find sd-v1-4.ckpt" =
      .error "AttributeError: NoneType object has no attribute to" := rfl

/-- C6 (amended): provided the worker's model handles are bound — or
reduced-memory mode is off — any exception escaping the pipeline yields a
terminal structured failure result with status failed carrying the error
description, and the cleanup is policy driven by the reduced-memory flag:
under reduced memory the resident components are moved back to host memory,
otherwise all models and filters are fully unloaded. -/
theorem mk_img_failure_yields_failed_status (td : ThreadState) (e : String)
    (h : td.model = true ∨ td.reduced_memory = false) :
    mk_img_on_exception td e =
      .ok (⟨"failed", e⟩,
        if td.reduced_memory then Cleanup.movedToHost else Cleanup.unloadedAll) := by
  rcases h with h | h
  · cases hrm : td.reduced_memory <;> simp [mk_img_on_exception, hrm, h]
  · simp [mk_img_on_exception, h]

/-- Witness for C6 (amended) on a loaded worker under reduced memory. -/
theorem mk_img_failure_yields_failed_status_witness :
    mk_img_on_exception tdLoadedW "CUDA out of memory" =
      .ok (⟨"failed", "CUDA out of memory"⟩,
        if tdLoadedW.reduced_memory then Cleanup.movedToHost else Cleanup.unloadedAll) :=
  mk_img_failure_yields_failed_status tdLoadedW "CUDA out of memory" (Or.inl rfl)

/-- C7 counterexample: the claim says loading a filter model on any device
other than the primary accelerator is rejected with an error for each of the
two filters, but load_model_real_esrgan performs no device check at all: on
the CPU device (and on any non-first CUDA ordinal) the RealESRGAN load
succeeds. -/
theorem real_esrgan_loads_on_any_device :
    load_model_real_esrgan fsCpuW =
      .ok { fsCpuW with model_real_esrgan := some "RealESRGAN_x4plus" } ∧
    apply_filters_load "real_esrgan"
        { fsCpuW with device := some (.cuda 1) } (some "RealESRGAN_x4plus") =
      .ok { fsCpuW with device := some (.cuda 1),
                        model_real_esrgan := some "RealESRGAN_x4plus" } := by
  constructor <;> rfl

/-- C7 (amended): each filter's model is lazily loaded per filter identity —
a bound model with no differing identity requested is reused without any
reload, while a differing requested identity triggers a reload — but only the
face-restoration filter (GFPGAN) rejects loading on a device other than the
first CUDA device; the upscaler (RealESRGAN) loads on any device. -/
theorem filter_lazy_load_per_identity (td : FilterState) (p : String) :
    (td.model_gfpgan ≠ none → apply_filters_load "gfpgan" td none = .ok td) ∧
    (td.model_real_esrgan ≠ none →
      apply_filters_load "real_esrgan" td none = .ok td) ∧
    (some p ≠ td.gfpgan_file → is_first_cuda_device td.device = true →
      apply_filters_load "gfpgan" td (some p) =
        .ok { td with gfpgan_file := some p, model_gfpgan := some p }) ∧
    (some p ≠ td.gfpgan_file → is_first_cuda_device td.device = false →
      apply_filters_load "gfpgan" td (some p) =
        .error "Current device is not cuda:0. Cannot run GFPGANer.") ∧
    (some p ≠ td.real_esrgan_file → p = "RealESRGAN_x4plus" →
      apply_filters_load "real_esrgan" td (some p) =
        .ok { td with real_esrgan_file := some p,
                      model_real_esrgan := some p }) := by
  refine ⟨?_, ?_, ?_, ?_, ?_⟩
  · intro h
    obtain ⟨m, hm⟩ := Option.ne_none_iff_exists'.mp h
    simp [apply_filters_load, hm]
  · intro h
    obtain ⟨m, hm⟩ := Option.ne_none_iff_exists'.mp h
    simp [apply_filters_load, hm]
  · intro h1 h2
    simp [apply_filters_load, load_model_gfpgan, h1, h2]
  · intro h1 h2
    simp [apply_filters_load, load_model_gfpgan, h1, h2]
  · intro h1 h2
    subst h2
    simp [apply_filters_load, load_model_real_esrgan, h1]

/-- Witness for C7 (amended): cache hits, a cross-identity reload on the first
CUDA device, the GFPGAN rejection on CPU, and a RealESRGAN load. -/
theorem filter_lazy_load_per_identity_witness :
    apply_filters_load "gfpgan" fsGpuW none = .ok fsGpuW ∧
    apply_filters_load "real_esrgan" fsGpuW none = .ok fsGpuW ∧
    apply_filters_load "gfpgan" fsGpuW (some "GFPGANv1.4") =
      .ok { fsGpuW with gfpgan_file := some "GFPGANv1.4",
                        model_gfpgan := some "GFPGANv1.4" } ∧
    apply_filters_load "gfpgan" fsCpuW (some "GFPGANv1.4") =
      .error "Current device is not cuda:0. Cannot run GFPGANer." ∧
    apply_filters_load "real_esrgan" fsFreshW (some "RealESRGAN_x4plus") =
      .ok { fsFreshW with real_esrgan_file := some "RealESRGAN_x4plus",
                          model_real_esrgan := some "RealESRGAN_x4plus" } :=
  ⟨(filter_lazy_load_per_identity fsGpuW "GFPGANv1.4").1 (by decide),
   (filter_lazy_load_per_identity fsGpuW "GFPGANv1.4").2.1 (by decide),
   (filter_lazy_load_per_identity fsGpuW "GFPGANv1.4").2.2.1 (by decide) (by decide),
   (filter_lazy_load_per_identity fsCpuW "GFPGANv1.4").2.2.2.1 (by decide) (by decide),
   (filter_lazy_load_per_identity fsFreshW "RealESRGAN_x4plus").2.2.2.2
     (by decide) (by decide)⟩

lemma decChar_encChar_fin : ∀ n : Fin 64, decChar (encChar n.val) = n.val := by
  decide

lemma encChar_ne_pad_fin : ∀ n : Fin 64, encChar n.val ≠ '=' := by
  decide

lemma decChar_encChar (n : ℕ) (h : n < 64) : decChar (encChar n) = n :=
  decChar_encChar_fin ⟨n, h⟩

lemma encChar_ne_pad (n : ℕ) (h : n < 64) : encChar n ≠ '=' :=
  encChar_ne_pad_fin ⟨n, h⟩

lemma b64_roundtrip : ∀ (bs : List ℕ), (∀ b ∈ bs, b < 256) →
    b64decode (b64encode bs) = bs
  | [], _ => rfl
  | [a], h => by
      have ha : a < 256 := h a (by simp)
      have e1 : a / 4 < 64 := by omega
      have e2 : a % 4 * 16 < 64 := by omega
      show b64decode [encChar (a / 4), encChar (a % 4 * 16), '=', '='] = [a]
      simp only [b64decode, if_true]
      rw [decChar_encChar _ e1, decChar_encChar _ e2]
      simp only [List.cons.injEq, and_true]
      omega
  | [a, b], h => by
      have ha : a < 256 := h a (by simp)
      have hb : b < 256 := h b (by simp)
      have e1 : a / 4 < 64 := by omega
      have e2 : a % 4 * 16 + b / 16 < 64 := by omega
      have e3 : b % 16 * 4 < 64 := by omega
      show b64decode [encChar (a / 4), encChar (a % 4 * 16 + b / 16),
        encChar (b % 16 * 4), '='] = [a, b]
      simp only [b64decode, if_true]
      rw [if_neg (encChar_ne_pad _ e3)]
      rw [decChar_encChar _ e1, decChar_encChar _ e2, decChar_encChar _ e3]
      simp only [List.cons.injEq, and_true]
      constructor <;> omega
  | a :: b :: c :: d :: rest, h => by
      have ha : a < 256 := h a (by simp)
      have hb : b < 256 := h b (by simp)
      have hc : c < 256 := h c (by simp)
      have e1 : a / 4 < 64 := by omega
      have e2 : a % 4 * 16 + b / 16 < 64 := by omega
      have e3 : b % 16 * 4 + c / 64 < 64 := by omega
      have e4 : c % 64 < 64 := by omega
      have ih := b64_roundtrip (d :: rest) (fun x hx => h x (by simp at hx ⊢; tauto))
      show b64decode (encChar (a / 4) :: encChar (a % 4 * 16 + b / 16) ::
        encChar (b % 16 * 4 + c / 64) :: encChar (c % 64) ::
        b64encode (d :: rest)) = a :: b :: c :: d :: rest
      simp only [b64decode]
      rw [if_neg (encChar_ne_pad _ e3), if_neg (encChar_ne_pad _ e4)]
      rw [decChar_encChar _ e1, decChar_encChar _ e2, decChar_encChar _ e3,
        decChar_encChar _ e4]
      rw [ih]
      simp only [List.cons.injEq, and_true, true_and]
      refine ⟨by omega, by omega, by omega⟩
  | [a, b, c], h => by
      have ha : a < 256 := h a (by simp)
      have hb : b < 256 := h b (by simp)
      have hc : c < 256 := h c (by simp)
      have e1 : a / 4 < 64 := by omega
      have e2 : a % 4 * 16 + b / 16 < 64 := by omega
      have e3 : b % 16 * 4 + c / 64 < 64 := by omega
      have e4 : c % 64 < 64 := by omega
      show b64decode [encChar (a / 4), encChar (a % 4 * 16 + b / 16),
        encChar (b % 16 * 4 + c / 64), encChar (c % 64)] = [a, b, c]
      simp only [b64decode]
      rw [if_neg (encChar_ne_pad _ e3), if_neg (encChar_ne_pad _ e4)]
      rw [decChar_encChar _ e1, decChar_encChar _ e2, decChar_encChar _ e3,
        decChar_encChar _ e4]
      simp only [List.cons.injEq, and_true]
      refine ⟨by omega, by omega, by omega⟩

lemma pngEncode_bytes_lt (img : Img) (hp : ∀ b ∈ img.pixels, b < 256) :
    ∀ b ∈ pngEncode img, b < 256 := by
  intro b hb
  simp only [pngEncode, natToBytes4, List.mem_append, List.mem_cons,
    List.not_mem_nil, or_false] at hb
  obtain ((h | h | h | h) | (h | h | h | h)) | h := hb
  all_goals first
  | (subst h; omega)
  | exact hp b h

lemma pngDecode_pngEncode (img : Img) (hw : img.width < 4294967296)
    (hh : img.height < 4294967296) :
    pngDecode (pngEncode img) = some img := by
  cases img with
  | mk w h pix =>
      simp only [pngEncode, natToBytes4, List.cons_append, List.nil_append,
        pngDecode, bytes4ToNat, Option.some.injEq, Img.mk.injEq] at hw hh ⊢
      exact ⟨by omega, by omega, trivial⟩

lemma isPrefixOf_append_self (l t : List Char) : l.isPrefixOf (l ++ t) = true := by
  induction l with
  | nil => simp [List.isPrefixOf]
  | cons c cs ih => simp [List.isPrefixOf, ih]

/-- C8: encoding an image to a PNG data-URI string and then decoding that
string reproduces the original pixel data exactly — the decoder strips the
matching data-URI marker, base64-decodes losslessly, and the PNG codec
preserves pixels. A valid image has byte-sized pixels and 32-bit
dimensions. -/
theorem png_data_uri_roundtrip (img : Img)
    (hw : img.width < 4294967296) (hh : img.height < 4294967296)
    (hp : ∀ b ∈ img.pixels, b < 256) :
    base64_str_to_img (img_to_base64_str img) = some img := by
  unfold base64_str_to_img img_to_base64_str dataUriStrip
  have hsplit : pngUriHead = pngMimeTest ++ "base64,".toList := by decide
  rw [if_pos (by rw [hsplit, List.append_assoc]; exact isPrefixOf_append_self _ _)]
  rw [show (22 : ℕ) = pngUriHead.length from rfl, List.drop_left]
  rw [b64_roundtrip _ (pngEncode_bytes_lt img hp)]
  exact pngDecode_pngEncode img hw hh

/-- Witness for C8 on a concrete 2 by 1 image. -/
theorem png_data_uri_roundtrip_witness :
    base64_str_to_img (img_to_base64_str ⟨2, 1, [255, 0, 7, 13, 99, 200]⟩) =
      some ⟨2, 1, [255, 0, 7, 13, 99, 200]⟩ :=
  png_data_uri_roundtrip ⟨2, 1, [255, 0, 7, 13, 99, 200]⟩
    (by decide) (by decide) (by decide)

/-- C10: the data-URI decoder chooses the mime type by testing only the PNG
marker "data:image/png;"; every input string that does not start with it —
including a bare base64 payload with no data-URI marker at all — has its
first 23 characters (the length of "data:image/jpeg;base64,") removed
unconditionally before base64 decoding, rather than failing or being decoded
whole. -/
theorem data_uri_decode_drops_23 (s : List Char)
    (h : pngMimeTest.isPrefixOf s = false) :
    dataUriStrip s = s.drop 23 ∧
    base64_str_to_img s = pngDecode (b64decode (s.drop 23)) := by
  have hs : dataUriStrip s = s.drop 23 := by
    unfold dataUriStrip
    rw [if_neg (by simp [h])]
  exact ⟨hs, by unfold base64_str_to_img; rw [hs]⟩

/-- Witness for C10 on a bare base64 string (a PNG payload with no data-URI
marker): its first 23 characters are silently discarded. -/
theorem data_uri_decode_drops_23_witness :
    dataUriStrip "iVBORw0KGgoAAAANSUhEUgAAAAEAAAABCAYAAA".toList =
      "iVBORw0KGgoAAAANSUhEUgAAAAEAAAABCAYAAA".toList.drop 23 ∧
    base64_str_to_img "iVBORw0KGgoAAAANSUhEUgAAAAEAAAABCAYAAA".toList =
      pngDecode (b64decode ("iVBORw0KGgoAAAANSUhEUgAAAAEAAAABCAYAAA".toList.drop 23)) :=
  data_uri_decode_drops_23 "iVBORw0KGgoAAAANSUhEUgAAAAEAAAABCAYAAA".toList (by decide)

/-- C9: at guidance scale 1.0 the unconditional conditioning is None, and the
weighted blending path initialises its accumulator from zeros_like(uc), so
the conditioning step errors for every prompt parsing into more than one
weighted subprompt — it can succeed at guidance scale 1.0 only when the parse
yields at most one subprompt, and with a single subprompt it does succeed. -/
theorem guidance_one_multi_subprompt_raises (get_cond : String → Vec)
    (neg prompt : String) (subprompts : List String) (weights : List ℚ)
    (h1 : subprompts.length > 1) :
    conditioning_step get_cond 1 neg prompt subprompts weights =
      .error "TypeError: zeros_like expected a Tensor, got None" ∧
    ∀ (sps2 : List String) (ws2 : List ℚ), sps2.length ≤ 1 →
      conditioning_step get_cond 1 neg prompt sps2 ws2 =
        .ok (get_cond prompt) := by
  constructor
  · simp only [conditioning_step, ne_eq, not_true_eq_false, if_false,
      if_pos h1]
  · intro sps2 ws2 hle
    simp only [conditioning_step, ne_eq, not_true_eq_false, if_false]
    rw [if_neg (by omega)]

/-- Witness for C9: two weighted subprompts versus one, at guidance scale 1. -/
theorem guidance_one_multi_subprompt_raises_witness :
    conditioning_step (fun _ => [1]) 1 "blurry" "cat:1 dog:1" ["cat", "dog"]
      [1, 1] = .error "TypeError: zeros_like expected a Tensor, got None" ∧
    conditioning_step (fun _ => [1]) 1 "blurry" "cat:1 dog:1" ["cat"] [1] =
      .ok ((fun _ => ([1] : Vec)) "cat:1 dog:1") :=
  ⟨(guidance_one_multi_subprompt_raises (fun _ => [1]) "blurry" "cat:1 dog:1"
      ["cat", "dog"] [1, 1] (by decide)).1,
   (guidance_one_multi_subprompt_raises (fun _ => [1]) "blurry" "cat:1 dog:1"
      ["cat", "dog"] [1, 1] (by decide)).2 ["cat"] [1] (by decide)⟩

end SDRuntime
